import Mathlib

/-!
Shallow embedding of the segment-to-video assembly pipeline of
`ai_news_roundup.py`: the slide exporter (`export_slides_to_images`), the
clip renderer (`_image_with_audio_clip`, `_write_clip`), the video build
orchestration (`build_video`) and the per-topic collection loop of `main`.

Durations are modelled as exact rationals; filesystem and external-tool
effects (PowerPoint slide export succeeding, `write_videofile` succeeding)
are modelled as boolean oracles passed in as parameters.
-/

namespace AINewsRoundup

/-- Model of Python `f"{n:02}"` formatting for the indices used here. -/
def pad2 (n : Nat) : String :=
  if n < 10 then "0" ++ toString n else toString n

/-- Model of `os.path.join` with a single separator. -/
def joinPath (a b : String) : String := a ++ "/" ++ b

/-- `OUTPUT_DIR = "output"` from the CONFIG section. -/
def OUTPUT_DIR : String := "output"

/-- `AUDIO_DIR = os.path.join(OUTPUT_DIR, "audio_clips")`. -/
def AUDIO_DIR : String := joinPath OUTPUT_DIR "audio_clips"

/-- `SLIDE_IMG_DIR = os.path.join(OUTPUT_DIR, "slides")`. -/
def SLIDE_IMG_DIR : String := joinPath OUTPUT_DIR "slides"

/-- `CLIPS_DIR = os.path.join(OUTPUT_DIR, "clips")`. -/
def CLIPS_DIR : String := joinPath OUTPUT_DIR "clips"

/-- `VIDEO_FILE = os.path.join(OUTPUT_DIR, "news_roundup.mp4")`. -/
def VIDEO_FILE : String := joinPath OUTPUT_DIR "news_roundup.mp4"

/-- `FINAL_AUDIO = os.path.join(OUTPUT_DIR, "news_roundup.mp3")`. -/
def FINAL_AUDIO : String := joinPath OUTPUT_DIR "news_roundup.mp3"

/-! ### Clip renderer: `_image_with_audio_clip` -/

/-- The observable timing structure of the moviepy composite clip built by
`_image_with_audio_clip`: total duration, how long the still image is shown,
the video fade-in/out durations (`none` when no fade effect is applied), the
audio start offset and the audio fade-in/out durations. -/
structure RenderedClip where
  totalDur : ℚ
  imageDur : ℚ
  videoFadeIn : Option ℚ
  videoFadeOut : Option ℚ
  audioStart : ℚ
  audioFadeIn : Option ℚ
  audioFadeOut : Option ℚ
  imagePath : String
  audioPath : String
  deriving Repr, DecidableEq

/-- Embedding of `_image_with_audio_clip(image_path, audio_path, pre_roll=0.6,
fade=0.4, tail_pad=0.2)`:
`total_dur = pre_roll + audio.duration + tail_pad`; the image clip gets
`set_duration(total_dur)`; if `fade > 0` the video gets `fadein fade` and
`fadeout fade`; the audio gets `set_start(pre_roll)` and, if `fade > 0`,
`audio_fadein fade` and `audio_fadeout (min fade (max 0.1 tail_pad))`. -/
def image_with_audio_clip (image_path audio_path : String) (audioDuration : ℚ)
    (pre_roll : ℚ := 3/5) (fade : ℚ := 2/5) (tail_pad : ℚ := 1/5) : RenderedClip :=
  let total_dur : ℚ := pre_roll + audioDuration + tail_pad
  { totalDur := total_dur
    imageDur := total_dur
    videoFadeIn := if fade > 0 then some fade else none
    videoFadeOut := if fade > 0 then some fade else none
    audioStart := pre_roll
    audioFadeIn := if fade > 0 then some fade else none
    audioFadeOut := if fade > 0 then some (min fade (max (1/10) tail_pad)) else none
    imagePath := image_path
    audioPath := audio_path }

/-! ### Clip writer: `_write_clip` -/

/-- Embedding of `_write_clip(clip, out_path, fps=24)`. The body is
`clip.write_videofile(...)` followed by `clip.close()`; `writeOk` is the
oracle for whether `write_videofile` succeeds. The returned Bool records
whether `clip.close()` was executed before the function returned or the
exception propagated: when `write_videofile` raises, control leaves the
function before reaching `clip.close()`. -/
def write_clip (writeOk : Bool) : Bool × Except String Unit :=
  if writeOk then (true, Except.ok ()) else (false, Except.error "write_videofile failed")

/-! ### Slide exporter: `export_slides_to_images` -/

/-- The deterministic filename chosen for slide `idx` (1-based) of a deck of
`total` slides: slide 1 is `intro_slide.jpg`, slide `total` is
`outro_slide.jpg`, and an interior slide `idx` is topic `idx - 1`, named
`topic_{idx-1:02}_slide.jpg`. -/
def slideExportName (idx total : Nat) : String :=
  if idx = 1 then "intro_slide.jpg"
  else if idx = total then "outro_slide.jpg"
  else "topic_" ++ pad2 (idx - 1) ++ "_slide.jpg"

/-- The per-slide export loop of `export_slides_to_images` over the 1-based
slide indices: each slide is exported to its deterministic destination, and a
missing file after export (`exportOk idx = false`, modelling
`not os.path.exists(dst)`) raises at once. On success the list of written
destinations is returned in export order. -/
def exportSlidesLoop (out_dir : String) (total : Nat) (exportOk : Nat → Bool) :
    List Nat → Except String (List String)
  | [] => Except.ok []
  | idx :: rest =>
    let dst := joinPath out_dir (slideExportName idx total)
    if exportOk idx then
      match exportSlidesLoop out_dir total exportOk rest with
      | Except.ok files => Except.ok (dst :: files)
      | Except.error e => Except.error e
    else
      Except.error ("PowerPoint failed to export slide " ++ toString idx ++ " to " ++ dst)

/-- The mapping `export_slides_to_images` returns: intro path, ordered topic
paths, outro path and the extension. -/
structure SlideMapping where
  intro : String
  topics : List String
  outro : String
  ext : String
  deriving Repr, DecidableEq

/-- Embedding of `export_slides_to_images(pptx_file, out_dir=SLIDE_IMG_DIR)`.
`total` is `pres.Slides.Count` of the opened presentation and `exportOk idx`
is the oracle for whether slide `idx`'s export left the destination file on
disk. Fails when `total < 2`, or when any slide's file is missing after
export; on success returns the files written, in export order, and the
mapping with topic paths `topic_01..topic_{total-2}`. -/
def export_slides_to_images (total : Nat) (exportOk : Nat → Bool)
    (out_dir : String := SLIDE_IMG_DIR) :
    Except String (List String × SlideMapping) :=
  if total < 2 then
    Except.error ("Presentation has " ++ toString total ++
      " slide(s); need at least intro + outro.")
  else
    match exportSlidesLoop out_dir total exportOk (List.range' 1 total) with
    | Except.error e => Except.error e
    | Except.ok files =>
      let topics := (List.range' 1 (total - 2)).map
        (fun i => joinPath out_dir ("topic_" ++ pad2 i ++ "_slide.jpg"))
      Except.ok (files,
        { intro := joinPath out_dir "intro_slide.jpg"
          topics := topics
          outro := joinPath out_dir "outro_slide.jpg"
          ext := ".jpg" })

/-! ### Segment model and `build_video` -/

/-- The per-topic segment dict appended to `all_segments` in `main`. -/
structure Segment where
  topic : String
  bullets : String
  script : String
  audio : String
  image : Option String
  deriving Repr, DecidableEq, Inhabited

/-- One rendered section clip file of `build_video`: the output path in
`CLIPS_DIR` and the composite clip written there. -/
structure SectionClip where
  outPath : String
  clip : RenderedClip
  deriving Repr, DecidableEq

/-- The observable outcome of a successful `build_video` run: the section
clips in render order, the `clip_paths` list, the order in which
`concatenate_videoclips` stitches the clip files, the final video path, the
file the final audio is extracted from (`AudioFileClip(VIDEO_FILE)`), and the
final audio path. -/
structure BuildOutput where
  renders : List SectionClip
  clipPaths : List String
  concatOrder : List String
  finalVideo : String
  finalAudioSource : String
  finalAudioPath : String
  deriving Repr, DecidableEq

/-- The `log.warning` text recorded when the exported topic-slide count and
the segment count differ. -/
def mismatchWarning (nSlides nSegs : Nat) : String :=
  "Topic slide count (" ++ toString nSlides ++ ") != segment count (" ++
    toString nSegs ++ "). Will pair by min length."

/-- Embedding of `build_video(segments, intro_audio, outro_audio,
pre_roll_seconds=0.6, fade_seconds=0.4, fps=24)`. `deckSlideCount` is the
slide count of the presentation at `PPTX_FILE` and `exportOk` the per-slide
export oracle, both consumed by `export_slides_to_images`; `audioDur` gives
each audio file's duration. Returns the warnings logged and either the error
raised or the build output: a mismatch between topic-slide count and segment
count logs a warning and pairing proceeds over `n = min` of the two; `n = 0`
raises; otherwise the intro clip, topic clips `1..n` (pairing
`topic_slides[idx-1]` with `segments[idx-1]`) and the outro clip are rendered
in that order, concatenated in that same order into `VIDEO_FILE`, and the
final audio is extracted from `VIDEO_FILE` into `FINAL_AUDIO`. -/
def build_video (segments : List Segment) (intro_audio outro_audio : String)
    (deckSlideCount : Nat) (exportOk : Nat → Bool) (audioDur : String → ℚ)
    (pre_roll_seconds : ℚ := 3/5) (fade_seconds : ℚ := 2/5) :
    List String × Except String BuildOutput :=
  match export_slides_to_images deckSlideCount exportOk SLIDE_IMG_DIR with
  | Except.error e => ([], Except.error e)
  | Except.ok (_, slides) =>
    let intro_slide := slides.intro
    let topic_slides := slides.topics
    let outro_slide := slides.outro
    let warnings :=
      if topic_slides.length ≠ segments.length then
        [mismatchWarning topic_slides.length segments.length]
      else []
    let n := min topic_slides.length segments.length
    if n = 0 then
      (warnings, Except.error "No topic slides available to build video.")
    else
      let introClip : SectionClip :=
        { outPath := joinPath CLIPS_DIR "00_intro.mp4"
          clip := image_with_audio_clip intro_slide intro_audio (audioDur intro_audio)
            pre_roll_seconds fade_seconds }
      let topicClips : List SectionClip := (List.range' 1 n).map (fun idx =>
        let seg := segments.getD (idx - 1) default
        let slide_path := topic_slides.getD (idx - 1) ""
        { outPath := joinPath CLIPS_DIR ("01_topic_" ++ pad2 idx ++ ".mp4")
          clip := image_with_audio_clip slide_path seg.audio (audioDur seg.audio)
            pre_roll_seconds fade_seconds })
      let outroClip : SectionClip :=
        { outPath := joinPath CLIPS_DIR "99_outro.mp4"
          clip := image_with_audio_clip outro_slide outro_audio (audioDur outro_audio)
            pre_roll_seconds fade_seconds }
      let renders := introClip :: topicClips ++ [outroClip]
      let clip_paths := renders.map SectionClip.outPath
      (warnings, Except.ok
        { renders := renders
          clipPaths := clip_paths
          concatOrder := clip_paths
          finalVideo := VIDEO_FILE
          finalAudioSource := VIDEO_FILE
          finalAudioPath := FINAL_AUDIO })

/-! ### The per-topic collection loop of `main` -/

/-- The upstream outcomes for one configured topic: whether the site searches
left any summaries (`site_summaries` nonempty), whether the AI processing
block (`get_bullet_points`, `get_script`, `get_image_keywords`,
`fetch_image`) raised no exception, whether `save_audio` (pyttsx3) succeeded,
and the content produced. -/
structure TopicOutcome where
  topic : String
  siteSummariesFound : Bool
  aiOk : Bool
  ttsOk : Bool
  bullets : String
  script : String
  image : Option String
  deriving Repr, DecidableEq

/-- The standardized audio filename for the `k`-th successful topic:
`os.path.join(AUDIO_DIR, f"topic_{k:02}_audio.wav")`. -/
def topicAudioName (k : Nat) : String :=
  joinPath AUDIO_DIR ("topic_" ++ pad2 k ++ "_audio.wav")

/-- Embedding of the `for topic, base_terms in TOPICS.items()` loop of
`main`: `topic_index` starts at 1 and `acc` at `[]`. A topic with no site
summaries logs and `continue`s; an exception in the AI block logs and
`continue`s; otherwise the audio file is named from the current
`topic_index`, `save_audio` runs — a `save_audio` exception propagates out of
the loop, aborting the run — and on success `topic_index` is incremented and
the segment appended. Returns the log lines for failures and either the
propagated error or the final segment list. -/
def collectTopics : List TopicOutcome → Nat → List Segment → List String →
    List String × Except String (List Segment)
  | [], _, acc, logs => (logs, Except.ok acc)
  | o :: rest, topic_index, acc, logs =>
    if !o.siteSummariesFound then
      collectTopics rest topic_index acc
        (logs ++ ["Skipping topic " ++ o.topic ++ " (no summaries)."])
    else if !o.aiOk then
      collectTopics rest topic_index acc
        (logs ++ ["AI processing failed for " ++ o.topic])
    else
      let audio_file := topicAudioName topic_index
      if !o.ttsOk then
        (logs ++ ["Audio synthesis failed for " ++ audio_file],
          Except.error ("Audio synthesis failed for " ++ audio_file))
      else
        collectTopics rest (topic_index + 1)
          (acc ++ [{ topic := o.topic, bullets := o.bullets, script := o.script,
                     audio := audio_file, image := o.image }]) logs

/-- The topic-collection phase of `main` over the given upstream outcomes. -/
def main_collect (outcomes : List TopicOutcome) :
    List String × Except String (List Segment) :=
  collectTopics outcomes 1 [] []

/-! ### Derived descriptions used by the characterizations -/

/-- The raster files a fully successful export of a `total`-slide deck
writes, in export order. -/
def exportedFiles (out_dir : String) (total : Nat) : List String :=
  (List.range' 1 total).map (fun idx => joinPath out_dir (slideExportName idx total))

/-- The topic-slide paths of the returned mapping for a `total`-slide deck. -/
def topicSlidePaths (out_dir : String) (total : Nat) : List String :=
  (List.range' 1 (total - 2)).map
    (fun i => joinPath out_dir ("topic_" ++ pad2 i ++ "_slide.jpg"))

/-- The mapping a successful export of a `total`-slide deck returns. -/
def expectedMapping (out_dir : String) (total : Nat) : SlideMapping :=
  { intro := joinPath out_dir "intro_slide.jpg"
    topics := topicSlidePaths out_dir total
    outro := joinPath out_dir "outro_slide.jpg"
    ext := ".jpg" }

/-- One section clip of `build_video`: output file `outName` inside
`CLIPS_DIR`, rendering `image_path` with `audio_path`. -/
def sectionOf (outName image_path audio_path : String) (audioDur : String → ℚ)
    (p f : ℚ) : SectionClip :=
  { outPath := joinPath CLIPS_DIR outName
    clip := image_with_audio_clip image_path audio_path (audioDur audio_path) p f }

/-- The section clips a successful `build_video` run renders, in order:
intro, topics `1..min (total-2) segments.length`, outro. -/
def bvRenders (segments : List Segment) (intro_audio outro_audio : String)
    (total : Nat) (audioDur : String → ℚ) (p f : ℚ) : List SectionClip :=
  sectionOf "00_intro.mp4" (joinPath SLIDE_IMG_DIR "intro_slide.jpg")
      intro_audio audioDur p f ::
    (List.range' 1 (min (total - 2) segments.length)).map (fun idx =>
      sectionOf ("01_topic_" ++ pad2 idx ++ ".mp4")
        ((topicSlidePaths SLIDE_IMG_DIR total).getD (idx - 1) "")
        ((segments.getD (idx - 1) default).audio) audioDur p f) ++
    [sectionOf "99_outro.mp4" (joinPath SLIDE_IMG_DIR "outro_slide.jpg")
      outro_audio audioDur p f]

/-- The log lines the collection loop records for skipped topics, in loop
order. -/
def skipLogs : List TopicOutcome → List String
  | [] => []
  | o :: rest =>
    if !o.siteSummariesFound then
      ("Skipping topic " ++ o.topic ++ " (no summaries).") :: skipLogs rest
    else if !o.aiOk then
      ("AI processing failed for " ++ o.topic) :: skipLogs rest
    else skipLogs rest

/-- The segments the collection loop appends when no `save_audio` call
fails, `i` being the next free topic index. -/
def newSegs : List TopicOutcome → Nat → List Segment
  | [], _ => []
  | o :: rest, i =>
    if o.siteSummariesFound && o.aiOk then
      { topic := o.topic, bullets := o.bullets, script := o.script,
        audio := topicAudioName i, image := o.image } :: newSegs rest (i + 1)
    else newSegs rest i

/-! ### Characterizations of the slide exporter -/

theorem exportSlidesLoop_ok_of_all (out_dir : String) (total : Nat)
    (exportOk : Nat → Bool) (l : List Nat) (h : ∀ idx ∈ l, exportOk idx = true) :
    exportSlidesLoop out_dir total exportOk l =
      Except.ok (l.map (fun idx => joinPath out_dir (slideExportName idx total))) := by
  induction l with
  | nil => rfl
  | cons idx rest ih =>
    have hidx : exportOk idx = true := h idx (List.mem_cons_self idx rest)
    have hrest : ∀ j ∈ rest, exportOk j = true :=
      fun j hj => h j (List.mem_cons_of_mem idx hj)
    simp [exportSlidesLoop, hidx, ih hrest]

theorem exportSlidesLoop_error_iff (out_dir : String) (total : Nat)
    (exportOk : Nat → Bool) (l : List Nat) :
    (∃ e, exportSlidesLoop out_dir total exportOk l = Except.error e) ↔
      ∃ idx ∈ l, exportOk idx = false := by
  induction l with
  | nil => simp [exportSlidesLoop]
  | cons idx rest ih =>
    by_cases hidx : exportOk idx = true
    · rcases hrec : exportSlidesLoop out_dir total exportOk rest with e' | files
      · have hl : exportSlidesLoop out_dir total exportOk (idx :: rest) =
            Except.error e' := by
          simp [exportSlidesLoop, hidx, hrec]
        rcases ih.mp ⟨e', hrec⟩ with ⟨j, hj, hjf⟩
        exact iff_of_true ⟨e', hl⟩ ⟨j, List.mem_cons_of_mem idx hj, hjf⟩
      · have hl : exportSlidesLoop out_dir total exportOk (idx :: rest) =
            Except.ok (joinPath out_dir (slideExportName idx total) :: files) := by
          simp [exportSlidesLoop, hidx, hrec]
        have hnone : ¬∃ j ∈ rest, exportOk j = false := by
          intro hc
          rcases ih.mpr hc with ⟨e, he⟩
          rw [hrec] at he
          exact Except.noConfusion he
        refine iff_of_false ?_ ?_
        · rintro ⟨e, he⟩
          rw [hl] at he
          exact Except.noConfusion he
        · rintro ⟨j, hj, hjf⟩
          rcases List.mem_cons.mp hj with rfl | hjr
          · rw [hjf] at hidx; exact absurd hidx (by simp)
          · exact hnone ⟨j, hjr, hjf⟩
    · have hfalse : exportOk idx = false := by
        revert hidx; cases exportOk idx <;> simp
      have hl : exportSlidesLoop out_dir total exportOk (idx :: rest) =
          Except.error ("PowerPoint failed to export slide " ++ toString idx ++
            " to " ++ joinPath out_dir (slideExportName idx total)) := by
        simp [exportSlidesLoop, hfalse]
      exact iff_of_true ⟨_, hl⟩ ⟨idx, List.mem_cons_self idx rest, hfalse⟩

theorem export_slides_eq_ok (out_dir : String) (total : Nat) (exportOk : Nat → Bool)
    (h2 : 2 ≤ total) (hok : ∀ idx ∈ List.range' 1 total, exportOk idx = true) :
    export_slides_to_images total exportOk out_dir =
      Except.ok (exportedFiles out_dir total, expectedMapping out_dir total) := by
  unfold export_slides_to_images
  rw [if_neg (by omega)]
  rw [exportSlidesLoop_ok_of_all out_dir total exportOk _ hok]
  rfl

/-! ### Characterization of a successful `build_video` run -/

theorem build_video_eq_ok (segments : List Segment) (intro_audio outro_audio : String)
    (total : Nat) (exportOk : Nat → Bool) (audioDur : String → ℚ) (p f : ℚ)
    (hok : ∀ idx ∈ List.range' 1 total, exportOk idx = true)
    (hn : 1 ≤ min (total - 2) segments.length) :
    build_video segments intro_audio outro_audio total exportOk audioDur p f =
      ((if total - 2 = segments.length then []
        else [mismatchWarning (total - 2) segments.length]),
       Except.ok
        { renders := bvRenders segments intro_audio outro_audio total audioDur p f
          clipPaths := (bvRenders segments intro_audio outro_audio total audioDur p f).map
            SectionClip.outPath
          concatOrder := (bvRenders segments intro_audio outro_audio total audioDur p f).map
            SectionClip.outPath
          finalVideo := VIDEO_FILE
          finalAudioSource := VIDEO_FILE
          finalAudioPath := FINAL_AUDIO }) := by
  have h2 : 2 ≤ total := by omega
  have hlen : (topicSlidePaths SLIDE_IMG_DIR total).length = total - 2 := by
    simp [topicSlidePaths]
  unfold build_video
  rw [export_slides_eq_ok SLIDE_IMG_DIR total exportOk h2 hok]
  simp only [expectedMapping]
  rw [hlen]
  rw [if_neg (show ¬ min (total - 2) segments.length = 0 by omega)]
  simp [bvRenders, sectionOf, mismatchWarning, topicSlidePaths]

/-! ### Characterizations of the topic-collection loop -/

theorem collectTopics_eq_of_tts (outcomes : List TopicOutcome)
    (htts : ∀ o ∈ outcomes,
      o.siteSummariesFound = true → o.aiOk = true → o.ttsOk = true) :
    ∀ (i : Nat) (acc : List Segment) (logs : List String),
      collectTopics outcomes i acc logs =
        (logs ++ skipLogs outcomes, Except.ok (acc ++ newSegs outcomes i)) := by
  induction outcomes with
  | nil => intro i acc logs; simp [collectTopics, skipLogs, newSegs]
  | cons o rest ih =>
    intro i acc logs
    have hrest : ∀ o' ∈ rest,
        o'.siteSummariesFound = true → o'.aiOk = true → o'.ttsOk = true :=
      fun o' h' => htts o' (List.mem_cons_of_mem o h')
    by_cases hs : o.siteSummariesFound = true
    · by_cases ha : o.aiOk = true
      · have htt : o.ttsOk = true := htts o (List.mem_cons_self o rest) hs ha
        simp [collectTopics, hs, ha, htt, newSegs, skipLogs, ih hrest]
      · have ha' : o.aiOk = false := by revert ha; cases o.aiOk <;> simp
        simp [collectTopics, hs, ha', newSegs, skipLogs, ih hrest]
    · have hs' : o.siteSummariesFound = false := by
        revert hs; cases o.siteSummariesFound <;> simp
      simp [collectTopics, hs', newSegs, skipLogs, ih hrest]

theorem newSegs_map_topic (outcomes : List TopicOutcome) :
    ∀ i, (newSegs outcomes i).map Segment.topic =
      (outcomes.filter (fun o => o.siteSummariesFound && o.aiOk)).map
        TopicOutcome.topic := by
  induction outcomes with
  | nil => intro i; simp [newSegs]
  | cons o rest ih =>
    intro i
    by_cases hc : (o.siteSummariesFound && o.aiOk) = true
    · simp [newSegs, hc, List.filter, ih]
    · have hc' : (o.siteSummariesFound && o.aiOk) = false := by
        revert hc; cases o.siteSummariesFound <;> cases o.aiOk <;> simp
      simp [newSegs, hc', List.filter, ih]

theorem mem_skipLogs_tail (o : TopicOutcome) (rest : List TopicOutcome)
    (x : String) (hx : x ∈ skipLogs rest) : x ∈ skipLogs (o :: rest) := by
  unfold skipLogs
  split
  · exact List.mem_cons_of_mem _ hx
  · split
    · exact List.mem_cons_of_mem _ hx
    · exact hx

theorem mem_skipLogs_of_no_summaries (outcomes : List TopicOutcome)
    (o : TopicOutcome) (ho : o ∈ outcomes) (hs : o.siteSummariesFound = false) :
    ("Skipping topic " ++ o.topic ++ " (no summaries).") ∈ skipLogs outcomes := by
  induction outcomes with
  | nil => cases ho
  | cons o' rest ih =>
    rcases List.mem_cons.mp ho with rfl | hmem
    · unfold skipLogs
      rw [if_pos (by simp [hs])]
      exact List.mem_cons_self _ _
    · exact mem_skipLogs_tail o' rest _ (ih hmem)

theorem mem_skipLogs_of_ai_failure (outcomes : List TopicOutcome)
    (o : TopicOutcome) (ho : o ∈ outcomes) (hs : o.siteSummariesFound = true)
    (ha : o.aiOk = false) :
    ("AI processing failed for " ++ o.topic) ∈ skipLogs outcomes := by
  induction outcomes with
  | nil => cases ho
  | cons o' rest ih =>
    rcases List.mem_cons.mp ho with rfl | hmem
    · unfold skipLogs
      rw [if_neg (by simp [hs]), if_pos (by simp [ha])]
      exact List.mem_cons_self _ _
    · exact mem_skipLogs_tail o' rest _ (ih hmem)

theorem collectTopics_audio_invariant (outcomes : List TopicOutcome) :
    ∀ (i : Nat) (acc : List Segment) (logs logs' : List String)
      (segs : List Segment),
      collectTopics outcomes i acc logs = (logs', Except.ok segs) →
      i = acc.length + 1 →
      (∀ k s, acc[k]? = some s → s.audio = topicAudioName (k + 1)) →
      ∀ k s, segs[k]? = some s → s.audio = topicAudioName (k + 1) := by
  induction outcomes with
  | nil =>
    intro i acc logs logs' segs h hi hacc k s hk
    simp only [collectTopics, Prod.mk.injEq, Except.ok.injEq] at h
    exact hacc k s (h.2 ▸ hk)
  | cons o rest ih =>
    intro i acc logs logs' segs h hi hacc
    by_cases hs : o.siteSummariesFound = true
    · by_cases ha : o.aiOk = true
      · by_cases htt : o.ttsOk = true
        · simp only [collectTopics, hs, ha, htt, Bool.not_true, Bool.false_eq_true,
            if_false] at h
          refine ih (i + 1)
            (acc ++ [{ topic := o.topic, bullets := o.bullets, script := o.script,
                       audio := topicAudioName i, image := o.image }]) logs logs' segs h
            (by simp [hi]) ?_
          intro k s hk
          rcases Nat.lt_or_ge k acc.length with hlt | hge
          · rw [List.getElem?_append_left hlt] at hk
            exact hacc k s hk
          · have hk' := hk
            rw [List.getElem?_eq_some] at hk'
            rcases hk' with ⟨hklen, -⟩
            have hkeq : k = acc.length := by
              simp at hklen
              omega
            subst hkeq
            rw [List.getElem?_concat_length] at hk
            cases hk
            simp [hi]
        · have htt' : o.ttsOk = false := by revert htt; cases o.ttsOk <;> simp
          simp [collectTopics, hs, ha, htt'] at h
      · have ha' : o.aiOk = false := by revert ha; cases o.aiOk <;> simp
        simp only [collectTopics, hs, ha', Bool.not_true, Bool.not_false,
          Bool.false_eq_true, if_false, if_true] at h
        exact ih i acc _ logs' segs h hi hacc
    · have hs' : o.siteSummariesFound = false := by
        revert hs; cases o.siteSummariesFound <;> simp
      simp only [collectTopics, hs', Bool.not_false, if_true] at h
      exact ih i acc _ logs' segs h hi hacc

theorem topicSlidePaths_getD (out_dir : String) (total i : Nat) (hi : i < total - 2) :
    (topicSlidePaths out_dir total).getD i "" =
      joinPath out_dir ("topic_" ++ pad2 (i + 1) ++ "_slide.jpg") := by
  have hidx : 1 + 1 * i = i + 1 := by omega
  rw [List.getD_eq_getElem?_getD]
  simp [topicSlidePaths, List.getElem?_range' 1 1 hi, hidx]
  rw [Nat.add_comm 1 i]

/-! ### The claims -/

/-- C1: for every clip rendered by `_image_with_audio_clip` from an image
path and an audio file of duration `d`, with `pre_roll = p` and
`tail_pad = t` both non-negative, the total duration of the produced clip
equals `p + d + t` exactly, and the still image is displayed (its
`set_duration`) for that entire duration. -/
theorem clip_totalDuration_exact (image_path audio_path : String) (d p f t : ℚ)
    (hp : 0 ≤ p) (ht : 0 ≤ t) :
    (image_with_audio_clip image_path audio_path d p f t).totalDur = p + d + t ∧
    (image_with_audio_clip image_path audio_path d p f t).imageDur = p + d + t :=
  ⟨rfl, rfl⟩

/-- Witness for C1 at `d = 30`, `p = 3/5`, `fade = 2/5`, `t = 1/5`. -/
theorem clip_totalDuration_exact_witness :
    (0:ℚ) ≤ 3/5 ∧ (0:ℚ) ≤ 1/5 ∧
    ((image_with_audio_clip "output/slides/intro_slide.jpg"
        "output/audio_clips/intro_audio.wav" 30 (3/5) (2/5) (1/5)).totalDur =
          3/5 + 30 + 1/5 ∧
      (image_with_audio_clip "output/slides/intro_slide.jpg"
        "output/audio_clips/intro_audio.wav" 30 (3/5) (2/5) (1/5)).imageDur =
          3/5 + 30 + 1/5) :=
  ⟨by norm_num, by norm_num,
    clip_totalDuration_exact "output/slides/intro_slide.jpg"
      "output/audio_clips/intro_audio.wav" 30 (3/5) (2/5) (1/5)
      (by norm_num) (by norm_num)⟩

/-- C4: for every clip rendered with `fade > 0` and `tail_pad ≥ 0`, the
audio fade-out duration applied equals `min fade (max 0.1 tail_pad)`, which
never exceeds the (floored) tail window `max 0.1 tail_pad`; the audio
fade-in duration is `fade`, and the audio starts at offset `pre_roll`. -/
theorem clip_audio_fade_clamped (image_path audio_path : String) (d p f t : ℚ)
    (hf : 0 < f) (ht : 0 ≤ t) :
    (image_with_audio_clip image_path audio_path d p f t).audioFadeOut =
        some (min f (max (1/10) t)) ∧
    min f (max (1/10) t) ≤ max (1/10) t ∧
    (image_with_audio_clip image_path audio_path d p f t).audioFadeIn = some f ∧
    (image_with_audio_clip image_path audio_path d p f t).audioStart = p := by
  refine ⟨?_, min_le_right _ _, ?_, rfl⟩ <;> simp [image_with_audio_clip, hf]

/-- Witness for C4 at `d = 30`, `p = 3/5`, `fade = 2/5`, `t = 1/5`. -/
theorem clip_audio_fade_clamped_witness :
    (0:ℚ) < 2/5 ∧ (0:ℚ) ≤ 1/5 ∧
    ((image_with_audio_clip "output/slides/topic_01_slide.jpg"
        "output/audio_clips/topic_01_audio.wav" 30 (3/5) (2/5) (1/5)).audioFadeOut =
          some (min (2/5) (max (1/10) (1/5))) ∧
      min ((2:ℚ)/5) (max (1/10) (1/5)) ≤ max (1/10) (1/5) ∧
      (image_with_audio_clip "output/slides/topic_01_slide.jpg"
        "output/audio_clips/topic_01_audio.wav" 30 (3/5) (2/5) (1/5)).audioFadeIn =
          some (2/5) ∧
      (image_with_audio_clip "output/slides/topic_01_slide.jpg"
        "output/audio_clips/topic_01_audio.wav" 30 (3/5) (2/5) (1/5)).audioStart = 3/5) :=
  ⟨by norm_num, by norm_num,
    clip_audio_fade_clamped "output/slides/topic_01_slide.jpg"
      "output/audio_clips/topic_01_audio.wav" 30 (3/5) (2/5) (1/5)
      (by norm_num) (by norm_num)⟩

/-- C9 counterexample: when `write_videofile` fails, `_write_clip` lets the
exception propagate before reaching `clip.close()`, so the clip's resources
are not released on the failure path. -/
theorem write_clip_failure_leaves_open :
    (write_clip false).1 = false ∧
    (write_clip false).2 = Except.error "write_videofile failed" :=
  ⟨rfl, rfl⟩

/-- C9 amended: `_write_clip` closes the clip before returning on the
success path only; when `write_videofile` raises, `clip.close()` is never
reached and the clip stays open. -/
theorem write_clip_close_on_success_only :
    write_clip true = (true, Except.ok ()) ∧ (write_clip false).1 = false :=
  ⟨rfl, rfl⟩

/-- C2 counterexample: with zero successful topics (empty segment list) and
the 2-slide intro+outro deck exporting cleanly, `build_video` raises
`RuntimeError("No topic slides available to build video.")` instead of
rendering intro and outro into a short final video. -/
theorem build_video_zero_topics_cex :
    (build_video [] "output/audio_clips/intro_audio.wav"
        "output/audio_clips/outro_audio.wav" 2 (fun _ => true) (fun _ => 0)).2 =
      Except.error "No topic slides available to build video." := rfl

/-- C2 amended: if zero topics succeed upstream the pipeline does not render
intro and outro; with the resulting 2-slide deck exporting successfully,
`build_video` raises `RuntimeError("No topic slides available to build
video.")` before rendering any clip. -/
theorem build_video_zero_topics_raises (intro_audio outro_audio : String)
    (exportOk : Nat → Bool) (audioDur : String → ℚ) (p f : ℚ)
    (hok : ∀ idx ∈ List.range' 1 2, exportOk idx = true) :
    build_video [] intro_audio outro_audio 2 exportOk audioDur p f =
      ([], Except.error "No topic slides available to build video.") := by
  unfold build_video
  rw [export_slides_eq_ok SLIDE_IMG_DIR 2 exportOk (le_refl 2) hok]
  simp [expectedMapping, topicSlidePaths]

/-- Witness for the amended C2 at concrete arguments. -/
theorem build_video_zero_topics_raises_witness :
    (∀ idx ∈ List.range' 1 2, (fun _ => true) idx = true) ∧
    build_video [] "output/audio_clips/intro_audio.wav"
        "output/audio_clips/outro_audio.wav" 2 (fun _ => true) (fun _ => 0)
        (3/5) (2/5) =
      ([], Except.error "No topic slides available to build video.") :=
  ⟨by decide,
    build_video_zero_topics_raises "output/audio_clips/intro_audio.wav"
      "output/audio_clips/outro_audio.wav" (fun _ => true) (fun _ => 0)
      (3/5) (2/5) (by decide)⟩

/-- C5: for every valid deck of `N + 2` slides whose per-slide exports all
leave their file on disk, the exporter produces exactly `N + 2` raster
files with deterministic positional names — the first exported as the intro
file, the last as the outro file, interior slide `k + 2` as
`topic_{k+1:02}_slide.jpg` in original order — and returns a mapping whose
`topics` list has length exactly `N`. -/
theorem exporter_files_and_mapping (out_dir : String) (N : Nat)
    (exportOk : Nat → Bool)
    (hok : ∀ idx ∈ List.range' 1 (N + 2), exportOk idx = true) :
    ∃ files m,
      export_slides_to_images (N + 2) exportOk out_dir = Except.ok (files, m) ∧
      files.length = N + 2 ∧
      files.head? = some (joinPath out_dir "intro_slide.jpg") ∧
      files.getLast? = some (joinPath out_dir "outro_slide.jpg") ∧
      (∀ k, k < N → files[k + 1]? =
        some (joinPath out_dir ("topic_" ++ pad2 (k + 1) ++ "_slide.jpg"))) ∧
      m.intro = joinPath out_dir "intro_slide.jpg" ∧
      m.outro = joinPath out_dir "outro_slide.jpg" ∧
      m.topics.length = N ∧
      (∀ k, k < N → m.topics[k]? =
        some (joinPath out_dir ("topic_" ++ pad2 (k + 1) ++ "_slide.jpg"))) := by
  refine ⟨exportedFiles out_dir (N + 2), expectedMapping out_dir (N + 2),
    export_slides_eq_ok out_dir (N + 2) exportOk (by omega) hok,
    ?_, ?_, ?_, ?_, rfl, rfl, ?_, ?_⟩
  · simp [exportedFiles]
  · simp [exportedFiles, List.head?_map, List.head?_range', slideExportName]
  · have hlast : 1 + (N + 2) - 1 = N + 2 := by omega
    simp only [exportedFiles, List.getLast?_map, List.getLast?_range', hlast]
    rw [if_neg (by omega)]
    simp only [Option.map_some']
    rw [slideExportName, if_neg (by omega), if_pos rfl]
  · intro k hk
    have hidx : 1 + 1 * (k + 1) = k + 2 := by omega
    simp only [exportedFiles, List.getElem?_map,
      List.getElem?_range' 1 1 (show k + 1 < N + 2 by omega), hidx, Option.map_some']
    rw [slideExportName, if_neg (by omega), if_neg (by omega)]
    simp
  · simp [expectedMapping, topicSlidePaths]
  · intro k hk
    have hidx : 1 + 1 * k = k + 1 := by omega
    simp only [expectedMapping, topicSlidePaths, List.getElem?_map,
      List.getElem?_range' 1 1 (show k < N + 2 - 2 by omega), hidx, Option.map_some']

/-- Witness for C5 at `N = 1` with every export succeeding. -/
theorem exporter_files_and_mapping_witness :
    (∀ idx ∈ List.range' 1 (1 + 2), (fun _ => true) idx = true) ∧
    (∃ files m,
      export_slides_to_images (1 + 2) (fun _ => true) "output/slides" =
        Except.ok (files, m) ∧
      files.length = 1 + 2 ∧
      files.head? = some (joinPath "output/slides" "intro_slide.jpg") ∧
      files.getLast? = some (joinPath "output/slides" "outro_slide.jpg") ∧
      (∀ k, k < 1 → files[k + 1]? =
        some (joinPath "output/slides" ("topic_" ++ pad2 (k + 1) ++ "_slide.jpg"))) ∧
      m.intro = joinPath "output/slides" "intro_slide.jpg" ∧
      m.outro = joinPath "output/slides" "outro_slide.jpg" ∧
      m.topics.length = 1 ∧
      (∀ k, k < 1 → m.topics[k]? =
        some (joinPath "output/slides" ("topic_" ++ pad2 (k + 1) ++ "_slide.jpg")))) :=
  ⟨by decide, exporter_files_and_mapping "output/slides" 1 (fun _ => true) (by decide)⟩

/-- C6: the slide exporter fails (raises) exactly when the source deck has
fewer than 2 slides or some slide's expected output file is missing after
its export; with at least 2 slides and every export file present, it
succeeds. -/
theorem exporter_error_iff (out_dir : String) (total : Nat) (exportOk : Nat → Bool) :
    (∃ e, export_slides_to_images total exportOk out_dir = Except.error e) ↔
      (total < 2 ∨ ∃ idx ∈ List.range' 1 total, exportOk idx = false) := by
  by_cases h2 : total < 2
  · refine iff_of_true ⟨"Presentation has " ++ toString total ++
      " slide(s); need at least intro + outro.", ?_⟩ (Or.inl h2)
    unfold export_slides_to_images
    rw [if_pos h2]
  · constructor
    · rintro ⟨e, he⟩
      unfold export_slides_to_images at he
      rw [if_neg h2] at he
      rcases hrec : exportSlidesLoop out_dir total exportOk (List.range' 1 total)
        with e' | files
      · exact Or.inr ((exportSlidesLoop_error_iff out_dir total exportOk _).mp ⟨e', hrec⟩)
      · rw [hrec] at he
        exact Except.noConfusion he
    · rintro (hlt | hexists)
      · exact absurd hlt h2
      · rcases (exportSlidesLoop_error_iff out_dir total exportOk _).mpr hexists
          with ⟨e, he⟩
        refine ⟨e, ?_⟩
        unfold export_slides_to_images
        rw [if_neg h2, he]

theorem bvRenders_length (segments : List Segment) (intro_audio outro_audio : String)
    (total : Nat) (audioDur : String → ℚ) (p f : ℚ) :
    (bvRenders segments intro_audio outro_audio total audioDur p f).length =
      min (total - 2) segments.length + 2 := by
  simp [bvRenders]

theorem bvRenders_head (segments : List Segment) (intro_audio outro_audio : String)
    (total : Nat) (audioDur : String → ℚ) (p f : ℚ) :
    (bvRenders segments intro_audio outro_audio total audioDur p f).head? =
      some (sectionOf "00_intro.mp4" (joinPath SLIDE_IMG_DIR "intro_slide.jpg")
        intro_audio audioDur p f) := by
  simp [bvRenders]

theorem bvRenders_last (segments : List Segment) (intro_audio outro_audio : String)
    (total : Nat) (audioDur : String → ℚ) (p f : ℚ) :
    (bvRenders segments intro_audio outro_audio total audioDur p f).getLast? =
      some (sectionOf "99_outro.mp4" (joinPath SLIDE_IMG_DIR "outro_slide.jpg")
        outro_audio audioDur p f) := by
  unfold bvRenders
  exact List.getLast?_concat _

theorem bvRenders_topic (segments : List Segment) (intro_audio outro_audio : String)
    (total : Nat) (audioDur : String → ℚ) (p f : ℚ) (i : Nat)
    (hi : i < min (total - 2) segments.length) :
    (bvRenders segments intro_audio outro_audio total audioDur p f)[i + 1]? =
      some (sectionOf ("01_topic_" ++ pad2 (i + 1) ++ ".mp4")
        (joinPath SLIDE_IMG_DIR ("topic_" ++ pad2 (i + 1) ++ "_slide.jpg"))
        ((segments.getD i default).audio) audioDur p f) := by
  unfold bvRenders
  rw [List.getElem?_append_left (by simp; omega), List.getElem?_cons_succ,
    List.getElem?_map, List.getElem?_range' 1 1 hi]
  simp only [Option.map_some']
  have hidx : 1 + 1 * i = i + 1 := by omega
  rw [hidx]
  simp only [Nat.add_sub_cancel]
  rw [topicSlidePaths_getD SLIDE_IMG_DIR total i (by omega)]

/-- C3: for every run in which the exported topic-slide count (`total - 2`)
differs from the segment count, both at least 1, `build_video` records the
mismatch warning, does not raise, and pairs topic slides with segments
positionally up to the minimum of the two lengths: the run renders min + 2
sections, topic section `i + 1` pairing the `(i+1)`-th topic slide with the
`(i+1)`-th segment's audio. -/
theorem build_video_mismatch_warns_and_pairs (segments : List Segment)
    (intro_audio outro_audio : String) (total : Nat) (exportOk : Nat → Bool)
    (audioDur : String → ℚ) (p f : ℚ)
    (hok : ∀ idx ∈ List.range' 1 total, exportOk idx = true)
    (hslides : 1 ≤ total - 2) (hsegs : 1 ≤ segments.length)
    (hne : total - 2 ≠ segments.length) :
    ∃ out,
      build_video segments intro_audio outro_audio total exportOk audioDur p f =
        ([mismatchWarning (total - 2) segments.length], Except.ok out) ∧
      out.renders.length = min (total - 2) segments.length + 2 ∧
      (∀ i, i < min (total - 2) segments.length →
        out.renders[i + 1]? = some (sectionOf ("01_topic_" ++ pad2 (i + 1) ++ ".mp4")
          (joinPath SLIDE_IMG_DIR ("topic_" ++ pad2 (i + 1) ++ "_slide.jpg"))
          ((segments.getD i default).audio) audioDur p f)) := by
  have hn : 1 ≤ min (total - 2) segments.length := le_min hslides hsegs
  have heq := build_video_eq_ok segments intro_audio outro_audio total exportOk
    audioDur p f hok hn
  rw [if_neg hne] at heq
  refine ⟨_, heq, bvRenders_length segments intro_audio outro_audio total audioDur p f,
    fun i hi => bvRenders_topic segments intro_audio outro_audio total audioDur p f i hi⟩

/-- Witness for C3: one segment, a 5-slide deck (3 topic slides vs 1
segment). -/
theorem build_video_mismatch_witness :
    (∀ idx ∈ List.range' 1 5, (fun _ => true) idx = true) ∧
    (1 ≤ 5 - 2) ∧
    (1 ≤ ([⟨"Anthropic", "b", "s", topicAudioName 1, none⟩] : List Segment).length) ∧
    (5 - 2 ≠ ([⟨"Anthropic", "b", "s", topicAudioName 1, none⟩] : List Segment).length) ∧
    (∃ out,
      build_video [⟨"Anthropic", "b", "s", topicAudioName 1, none⟩]
        "output/audio_clips/intro_audio.wav" "output/audio_clips/outro_audio.wav"
        5 (fun _ => true) (fun _ => 0) (3/5) (2/5) =
        ([mismatchWarning (5 - 2)
          ([⟨"Anthropic", "b", "s", topicAudioName 1, none⟩] : List Segment).length],
          Except.ok out) ∧
      out.renders.length =
        min (5 - 2) ([⟨"Anthropic", "b", "s", topicAudioName 1, none⟩] :
          List Segment).length + 2 ∧
      (∀ i, i < min (5 - 2) ([⟨"Anthropic", "b", "s", topicAudioName 1, none⟩] :
          List Segment).length →
        out.renders[i + 1]? = some (sectionOf ("01_topic_" ++ pad2 (i + 1) ++ ".mp4")
          (joinPath SLIDE_IMG_DIR ("topic_" ++ pad2 (i + 1) ++ "_slide.jpg"))
          (([⟨"Anthropic", "b", "s", topicAudioName 1, none⟩] :
            List Segment).getD i default).audio (fun _ => 0) (3/5) (2/5)))) :=
  ⟨by decide, by decide, by decide, by decide,
    build_video_mismatch_warns_and_pairs
      [⟨"Anthropic", "b", "s", topicAudioName 1, none⟩]
      "output/audio_clips/intro_audio.wav" "output/audio_clips/outro_audio.wav"
      5 (fun _ => true) (fun _ => 0) (3/5) (2/5)
      (by decide) (by decide) (by decide) (by decide)⟩

/-- C8: for every run reaching clip rendering with
`n = min (topic slide count) (segment count) ≥ 1` and all slide exports
succeeding, the sections are rendered in the fixed order intro, topics
`1..n` (clip `i` pairing the `i`-th topic slide with the `i`-th segment's
audio, both in production order), then outro; the final video concatenates
exactly those clips in that same order, and the final audio is extracted
from the final video file. -/
theorem build_video_render_order (segments : List Segment)
    (intro_audio outro_audio : String) (total : Nat) (exportOk : Nat → Bool)
    (audioDur : String → ℚ) (p f : ℚ)
    (hok : ∀ idx ∈ List.range' 1 total, exportOk idx = true)
    (hn : 1 ≤ min (total - 2) segments.length) :
    ∃ warnings out,
      build_video segments intro_audio outro_audio total exportOk audioDur p f =
        (warnings, Except.ok out) ∧
      out.renders.length = min (total - 2) segments.length + 2 ∧
      out.renders.head? = some (sectionOf "00_intro.mp4"
        (joinPath SLIDE_IMG_DIR "intro_slide.jpg") intro_audio audioDur p f) ∧
      out.renders.getLast? = some (sectionOf "99_outro.mp4"
        (joinPath SLIDE_IMG_DIR "outro_slide.jpg") outro_audio audioDur p f) ∧
      (∀ i, i < min (total - 2) segments.length →
        out.renders[i + 1]? = some (sectionOf ("01_topic_" ++ pad2 (i + 1) ++ ".mp4")
          (joinPath SLIDE_IMG_DIR ("topic_" ++ pad2 (i + 1) ++ "_slide.jpg"))
          ((segments.getD i default).audio) audioDur p f)) ∧
      out.concatOrder = out.renders.map SectionClip.outPath ∧
      out.finalVideo = VIDEO_FILE ∧
      out.finalAudioSource = VIDEO_FILE := by
  have heq := build_video_eq_ok segments intro_audio outro_audio total exportOk
    audioDur p f hok hn
  exact ⟨_, _, heq,
    bvRenders_length segments intro_audio outro_audio total audioDur p f,
    bvRenders_head segments intro_audio outro_audio total audioDur p f,
    bvRenders_last segments intro_audio outro_audio total audioDur p f,
    fun i hi => bvRenders_topic segments intro_audio outro_audio total audioDur p f i hi,
    rfl, rfl, rfl⟩

/-- Witness for C8: two segments and a 4-slide deck, so `n = 2`. -/
theorem build_video_render_order_witness :
    (∀ idx ∈ List.range' 1 4, (fun _ => true) idx = true) ∧
    (1 ≤ min (4 - 2) ([⟨"Anthropic", "b1", "s1", topicAudioName 1, none⟩,
      ⟨"OpenAI", "b2", "s2", topicAudioName 2, none⟩] : List Segment).length) ∧
    (∃ warnings out,
      build_video [⟨"Anthropic", "b1", "s1", topicAudioName 1, none⟩,
          ⟨"OpenAI", "b2", "s2", topicAudioName 2, none⟩]
        "output/audio_clips/intro_audio.wav" "output/audio_clips/outro_audio.wav"
        4 (fun _ => true) (fun _ => 0) (3/5) (2/5) =
        (warnings, Except.ok out) ∧
      out.renders.length = min (4 - 2) ([⟨"Anthropic", "b1", "s1", topicAudioName 1, none⟩,
        ⟨"OpenAI", "b2", "s2", topicAudioName 2, none⟩] : List Segment).length + 2 ∧
      out.renders.head? = some (sectionOf "00_intro.mp4"
        (joinPath SLIDE_IMG_DIR "intro_slide.jpg")
        "output/audio_clips/intro_audio.wav" (fun _ => 0) (3/5) (2/5)) ∧
      out.renders.getLast? = some (sectionOf "99_outro.mp4"
        (joinPath SLIDE_IMG_DIR "outro_slide.jpg")
        "output/audio_clips/outro_audio.wav" (fun _ => 0) (3/5) (2/5)) ∧
      (∀ i, i < min (4 - 2) ([⟨"Anthropic", "b1", "s1", topicAudioName 1, none⟩,
          ⟨"OpenAI", "b2", "s2", topicAudioName 2, none⟩] : List Segment).length →
        out.renders[i + 1]? = some (sectionOf ("01_topic_" ++ pad2 (i + 1) ++ ".mp4")
          (joinPath SLIDE_IMG_DIR ("topic_" ++ pad2 (i + 1) ++ "_slide.jpg"))
          (([⟨"Anthropic", "b1", "s1", topicAudioName 1, none⟩,
            ⟨"OpenAI", "b2", "s2", topicAudioName 2, none⟩] :
            List Segment).getD i default).audio (fun _ => 0) (3/5) (2/5))) ∧
      out.concatOrder = out.renders.map SectionClip.outPath ∧
      out.finalVideo = VIDEO_FILE ∧
      out.finalAudioSource = VIDEO_FILE) :=
  ⟨by decide, by decide,
    build_video_render_order [⟨"Anthropic", "b1", "s1", topicAudioName 1, none⟩,
        ⟨"OpenAI", "b2", "s2", topicAudioName 2, none⟩]
      "output/audio_clips/intro_audio.wav" "output/audio_clips/outro_audio.wav"
      4 (fun _ => true) (fun _ => 0) (3/5) (2/5) (by decide) (by decide)⟩

/-- C7 counterexample: a `save_audio` (TTS) failure on the first topic is
not skipped: it propagates out of the loop and aborts the whole run, so the
second topic — fully successful upstream — is never processed and no segment
list is produced. -/
theorem tts_failure_aborts_run :
    (main_collect [⟨"Anthropic", true, true, false, "b1", "s1", none⟩,
        ⟨"OpenAI", true, true, true, "b2", "s2", none⟩]).2 =
      Except.error ("Audio synthesis failed for " ++ topicAudioName 1) := rfl

/-- C7 amended: a per-topic failure in search (no site summaries) or in the
AI block (bullets/script/keywords/image) is logged, the topic omitted from
the segment list, and the loop continues — provided no `save_audio` call
fails (a TTS failure propagates and aborts the run): the run then completes
with the segment list holding exactly the topics whose search and AI steps
succeeded, in order, and each skip logged. -/
theorem upstream_failures_skipped (outcomes : List TopicOutcome)
    (htts : ∀ o ∈ outcomes,
      o.siteSummariesFound = true → o.aiOk = true → o.ttsOk = true) :
    ∃ segs, (main_collect outcomes).2 = Except.ok segs ∧
      segs.map Segment.topic =
        (outcomes.filter (fun o => o.siteSummariesFound && o.aiOk)).map
          TopicOutcome.topic ∧
      (∀ o ∈ outcomes, o.siteSummariesFound = false →
        ("Skipping topic " ++ o.topic ++ " (no summaries).") ∈
          (main_collect outcomes).1) ∧
      (∀ o ∈ outcomes, o.siteSummariesFound = true → o.aiOk = false →
        ("AI processing failed for " ++ o.topic) ∈ (main_collect outcomes).1) := by
  have heq := collectTopics_eq_of_tts outcomes htts 1 [] []
  refine ⟨newSegs outcomes 1, ?_, newSegs_map_topic outcomes 1, ?_, ?_⟩
  · show (collectTopics outcomes 1 [] []).2 = _
    rw [heq]
    simp
  · intro o ho hs
    show _ ∈ (collectTopics outcomes 1 [] []).1
    rw [heq]
    simpa using mem_skipLogs_of_no_summaries outcomes o ho hs
  · intro o ho hs ha
    show _ ∈ (collectTopics outcomes 1 [] []).1
    rw [heq]
    simpa using mem_skipLogs_of_ai_failure outcomes o ho hs ha

/-- Witness for the amended C7: one topic with no summaries, one whose AI
block fails, one fully successful. -/
theorem upstream_failures_skipped_witness :
    (∀ o ∈ ([⟨"Anthropic", false, true, true, "b0", "s0", none⟩,
        ⟨"OpenAI", true, false, true, "b1", "s1", none⟩,
        ⟨"Humanoid Robots", true, true, true, "b2", "s2", none⟩] :
        List TopicOutcome),
      o.siteSummariesFound = true → o.aiOk = true → o.ttsOk = true) ∧
    (∃ segs, (main_collect [⟨"Anthropic", false, true, true, "b0", "s0", none⟩,
        ⟨"OpenAI", true, false, true, "b1", "s1", none⟩,
        ⟨"Humanoid Robots", true, true, true, "b2", "s2", none⟩]).2 =
          Except.ok segs ∧
      segs.map Segment.topic =
        (([⟨"Anthropic", false, true, true, "b0", "s0", none⟩,
          ⟨"OpenAI", true, false, true, "b1", "s1", none⟩,
          ⟨"Humanoid Robots", true, true, true, "b2", "s2", none⟩] :
          List TopicOutcome).filter
            (fun o => o.siteSummariesFound && o.aiOk)).map TopicOutcome.topic ∧
      (∀ o ∈ ([⟨"Anthropic", false, true, true, "b0", "s0", none⟩,
          ⟨"OpenAI", true, false, true, "b1", "s1", none⟩,
          ⟨"Humanoid Robots", true, true, true, "b2", "s2", none⟩] :
          List TopicOutcome), o.siteSummariesFound = false →
        ("Skipping topic " ++ o.topic ++ " (no summaries).") ∈
          (main_collect [⟨"Anthropic", false, true, true, "b0", "s0", none⟩,
            ⟨"OpenAI", true, false, true, "b1", "s1", none⟩,
            ⟨"Humanoid Robots", true, true, true, "b2", "s2", none⟩]).1) ∧
      (∀ o ∈ ([⟨"Anthropic", false, true, true, "b0", "s0", none⟩,
          ⟨"OpenAI", true, false, true, "b1", "s1", none⟩,
          ⟨"Humanoid Robots", true, true, true, "b2", "s2", none⟩] :
          List TopicOutcome), o.siteSummariesFound = true → o.aiOk = false →
        ("AI processing failed for " ++ o.topic) ∈
          (main_collect [⟨"Anthropic", false, true, true, "b0", "s0", none⟩,
            ⟨"OpenAI", true, false, true, "b1", "s1", none⟩,
            ⟨"Humanoid Robots", true, true, true, "b2", "s2", none⟩]).1)) :=
  ⟨by decide,
    upstream_failures_skipped [⟨"Anthropic", false, true, true, "b0", "s0", none⟩,
      ⟨"OpenAI", true, false, true, "b1", "s1", none⟩,
      ⟨"Humanoid Robots", true, true, true, "b2", "s2", none⟩] (by decide)⟩

/-- C10: in every completed run the `k`-th segment appended (1-based) has
its audio file named `topic_{k:02}_audio.wav` — the topic index counter
increments only when a topic succeeds and its segment is appended, so audio
numbers are consecutive from 1 over the successful topics regardless of
which topics were skipped — and this aligns positionally with the exporter's
`topic_{k:02}_slide.jpg` numbering for the deck built from those segments. -/
theorem segment_audio_numbering (outcomes : List TopicOutcome)
    (logs : List String) (segs : List Segment)
    (h : main_collect outcomes = (logs, Except.ok segs)) :
    ∀ k s, segs[k]? = some s →
      s.audio = topicAudioName (k + 1) ∧
      ∃ files m,
        export_slides_to_images (segs.length + 2) (fun _ => true) SLIDE_IMG_DIR =
          Except.ok (files, m) ∧
        m.topics[k]? = some (joinPath SLIDE_IMG_DIR
          ("topic_" ++ pad2 (k + 1) ++ "_slide.jpg")) := by
  intro k s hk
  have h' : collectTopics outcomes 1 [] [] = (logs, Except.ok segs) := h
  constructor
  · exact collectTopics_audio_invariant outcomes 1 [] [] logs segs h' rfl
      (by intro k' s' hk'; simp at hk') k s hk
  · have hklen : k < segs.length := by
      rcases List.getElem?_eq_some.mp hk with ⟨hlt, -⟩
      exact hlt
    refine ⟨exportedFiles SLIDE_IMG_DIR (segs.length + 2),
      expectedMapping SLIDE_IMG_DIR (segs.length + 2),
      export_slides_eq_ok SLIDE_IMG_DIR (segs.length + 2) (fun _ => true)
        (by omega) (by simp), ?_⟩
    have hidx : 1 + 1 * k = k + 1 := by omega
    simp only [expectedMapping, topicSlidePaths, List.getElem?_map,
      List.getElem?_range' 1 1 (show k < segs.length + 2 - 2 by omega), hidx,
      Option.map_some']

/-- Witness for C10: a run where the first topic is skipped, so the two
surviving segments get audio numbers 1 and 2. -/
theorem segment_audio_numbering_witness :
    main_collect [⟨"Anthropic", false, true, true, "b0", "s0", none⟩,
        ⟨"OpenAI", true, true, true, "b1", "s1", none⟩,
        ⟨"Humanoid Robots", true, true, true, "b2", "s2", none⟩] =
      (["Skipping topic Anthropic (no summaries)."],
        Except.ok [⟨"OpenAI", "b1", "s1", topicAudioName 1, none⟩,
          ⟨"Humanoid Robots", "b2", "s2", topicAudioName 2, none⟩]) ∧
    (∀ k s, ([⟨"OpenAI", "b1", "s1", topicAudioName 1, none⟩,
        ⟨"Humanoid Robots", "b2", "s2", topicAudioName 2, none⟩] :
        List Segment)[k]? = some s →
      s.audio = topicAudioName (k + 1) ∧
      ∃ files m,
        export_slides_to_images (([⟨"OpenAI", "b1", "s1", topicAudioName 1, none⟩,
            ⟨"Humanoid Robots", "b2", "s2", topicAudioName 2, none⟩] :
            List Segment).length + 2) (fun _ => true) SLIDE_IMG_DIR =
          Except.ok (files, m) ∧
        m.topics[k]? = some (joinPath SLIDE_IMG_DIR
          ("topic_" ++ pad2 (k + 1) ++ "_slide.jpg"))) :=
  ⟨rfl, segment_audio_numbering
    [⟨"Anthropic", false, true, true, "b0", "s0", none⟩,
      ⟨"OpenAI", true, true, true, "b1", "s1", none⟩,
      ⟨"Humanoid Robots", true, true, true, "b2", "s2", none⟩]
    ["Skipping topic Anthropic (no summaries)."]
    [⟨"OpenAI", "b1", "s1", topicAudioName 1, none⟩,
      ⟨"Humanoid Robots", "b2", "s2", topicAudioName 2, none⟩] rfl⟩

end AINewsRoundup
